import Mathlib

/-!
Verification development for the SimpleCalculator repository
(src/SimpleCalculator.cpp, include/Calculator.h).

The C++ program is a three-stage arithmetic expression evaluator:
`Tokenize` (text to token list), `ConvertToRPN` (shunting-yard infix to
postfix), and the postfix evaluation loop inside
`SimpleCalculator::Evaluate`.  Everything below is a shallow embedding of
that code: numbers (C++ `double`) are modelled as `ℚ`, wide characters as
`Char` with the C-locale ASCII classifiers, `std::map` as an association
list (insertion order preserved, lookup by key), and the
error-code-plus-out-parameter convention as `Except EvaluationError`.

Two reads in the C++ code are undefined behaviour and are modelled
explicitly:
* `eval_stack.top()` on an empty `std::stack` (reachable, e.g. for input
  "()"); the final read is modelled as `List.head?`, so the UB read
  surfaces as `none`;
* `Operators[curr]` on a `std::map` default-inserts a `Token` whose
  fields are left uninitialised by `Token()`; the insertion itself is
  modelled faithfully (the map grows), and the indeterminate contents are
  modelled as the zero-initialised value `⟨TokenType.Number, 0⟩`
  (enum value 0 and 0.0).
-/

/-- EvaluationError from include/Calculator.h. -/
inductive EvaluationError where
  | OK
  | InvalidCharacters
  | UnknownOperator
  | MismatchedParantheses
  | TooManyInputs
  | NotEnoughInputs
deriving DecidableEq, Repr

/-- TokenType from src/SimpleCalculator.cpp. -/
inductive TokenType where
  | Number
  | Add
  | Sub
  | Mult
  | Div
  | Exp
  | LParanthesis
  | RParenthesis
deriving DecidableEq, Repr

/-- Token from src/SimpleCalculator.cpp: a type tag and a value
(the constructor defaults the value to 0 for operator tokens). -/
structure Token where
  type : TokenType
  val : ℚ
deriving DecidableEq, Repr

/-- C-locale `iswalpha`, restricted to the ASCII letters. -/
def iswalpha (c : Char) : Bool :=
  (('a' : Char) ≤ c && c ≤ ('z' : Char)) || (('A' : Char) ≤ c && c ≤ ('Z' : Char))

/-- C-locale `iswdigit`: the decimal digits. -/
def iswdigit (c : Char) : Bool :=
  ('0' : Char) ≤ c && c ≤ ('9' : Char)

/-- C-locale `iswspace`: space, tab, newline, vertical tab, form feed,
carriage return. -/
def iswspace (c : Char) : Bool :=
  c = ' ' || c = '\t' || c = '\n' || c = (Char.ofNat 11) || c = (Char.ofNat 12) || c = '\r'

/-- The global `Operators` map of src/SimpleCalculator.cpp, as an
association list from character to token. -/
def Operators : List (Char × Token) :=
  [ ('+', ⟨TokenType.Add, 0⟩),
    ('-', ⟨TokenType.Sub, 0⟩),
    ('*', ⟨TokenType.Mult, 0⟩),
    ('/', ⟨TokenType.Div, 0⟩),
    ('^', ⟨TokenType.Exp, 0⟩),
    ('(', ⟨TokenType.LParanthesis, 0⟩),
    (')', ⟨TokenType.RParenthesis, 0⟩) ]

/-- `std::map::count(c) > 0` / lookup: first binding of `c`, if any. -/
def opLookup (m : List (Char × Token)) (c : Char) : Option Token :=
  match m with
  | [] => none
  | (k, v) :: rest => if k = c then some v else opLookup rest c

/-- The value `std::map::operator[]` default-inserts for a missing key:
`Token()` leaves both fields indeterminate (undefined behaviour to read);
modelled as the zero-initialised contents (enum value 0 = Number, 0.0). -/
def defaultToken : Token := ⟨TokenType.Number, 0⟩

/-- `Operators[c]`: return the mapped token, default-inserting
`defaultToken` when `c` is absent (this mutation of the shared map is the
C++ `std::map::operator[]` behaviour on line 147). -/
def opIndex (m : List (Char × Token)) (c : Char) : Token × List (Char × Token) :=
  match opLookup m c with
  | some t => (t, m)
  | none => (defaultToken, m ++ [(c, defaultToken)])

/-- The global `OperatorPrecendence` map.  Only the five operator kinds
are keyed; for any other key `std::map<TokenType,int>::operator[]` would
value-initialise to 0, which is the catch-all here. -/
def OperatorPrecendence : TokenType → Int
  | TokenType.Add => 0
  | TokenType.Sub => 0
  | TokenType.Mult => 1
  | TokenType.Div => 1
  | TokenType.Exp => 2
  | _ => 0

/-- One run of `std::wcstod` over an accumulated numeric substring:
optional sign, a run of digits, then optionally a decimal point and a
second run of digits; conversion stops at the first other character, and
a substring with no convertible prefix yields 0.0 (the lenient behaviour
the spec preserves). -/
def natOfDigits (l : List Char) : ℕ :=
  l.foldl (fun a c => 10 * a + (c.toNat - ('0' : Char).toNat)) 0

/-- Digit prefix of a character list. -/
def takeDigits (l : List Char) : List Char := l.takeWhile (fun c => iswdigit c)

/-- Remainder after the digit prefix. -/
def dropDigits (l : List Char) : List Char := l.dropWhile (fun c => iswdigit c)

/-- `std::wcstod(s, nullptr)` on the substrings the tokenizer produces. -/
def wcstod (s : List Char) : ℚ :=
  let signAndRest : Bool × List Char :=
    match s with
    | '-' :: r => (true, r)
    | '+' :: r => (false, r)
    | _ => (false, s)
  let ip := takeDigits signAndRest.2
  let afterIp := dropDigits signAndRest.2
  let fp :=
    match afterIp with
    | '.' :: r => takeDigits r
    | _ => []
  let mag : ℚ := (natOfDigits ip : ℚ) + (natOfDigits fp : ℚ) / ((10 : ℚ) ^ fp.length)
  if signAndRest.1 then -mag else mag

/-- The number-start test of Tokenize (src/SimpleCalculator.cpp lines
146-147): a digit, a decimal point, or `Operators[curr]` being the
subtract token with a digit immediately following.  The `Operators[curr]`
lookup default-inserts when `curr` is not a key, so the (possibly grown)
map is returned alongside the decision. -/
def startsNumber (ops : List (Char × Token)) (c : Char) (rest : List Char) :
    Bool × List (Char × Token) :=
  if iswdigit c || c = '.' then (true, ops)
  else
    (decide ((opIndex ops c).1.type = TokenType.Sub) &&
      (match rest with
       | d :: _ => iswdigit d
       | [] => false), (opIndex ops c).2)

/-- Tokenize's scanning loop (src/SimpleCalculator.cpp lines 133-183).
State: the shared `Operators` map, the `parsing_number` flag, the
accumulated numeric substring (`text.substr(start_index, ...)`), the
token list built so far, and the remaining input.  Returns the C++
error-code / out-parameter pair as an `Except`, together with the final
state of the shared `Operators` map. -/
def tokenizeAux (ops : List (Char × Token)) (parsing : Bool) (numAcc : List Char)
    (tokens : List Token) :
    List Char → Except EvaluationError (List Token) × List (Char × Token)
  | [] =>
    if parsing then
      (Except.ok (tokens ++ [⟨TokenType.Number, wcstod numAcc⟩]), ops)
    else
      (Except.ok tokens, ops)
  | c :: rest =>
    if iswalpha c then (Except.error EvaluationError.InvalidCharacters, ops)
    else if parsing then
      match opLookup ops c with
      | some tok =>
        tokenizeAux ops false []
          (tokens ++ [⟨TokenType.Number, wcstod numAcc⟩, tok]) rest
      | none =>
        if iswspace c then
          tokenizeAux ops false [] (tokens ++ [⟨TokenType.Number, wcstod numAcc⟩]) rest
        else
          tokenizeAux ops true (numAcc ++ [c]) tokens rest
    else
      match startsNumber ops c rest with
      | (sn, ops2) =>
        if sn then tokenizeAux ops2 true [c] tokens rest
        else if (opLookup ops c).isSome then
          match opLookup ops2 c with
          | some tok => tokenizeAux ops2 false [] (tokens ++ [tok]) rest
          | none => tokenizeAux ops2 false [] tokens rest
        else if iswspace c then tokenizeAux ops2 false [] tokens rest
        else (Except.error EvaluationError.UnknownOperator, ops2)

/-- `Tokenize` called on a fresh process (the global `Operators` map in
its initial state), returning the error code / token list. -/
def Tokenize (text : List Char) : Except EvaluationError (List Token) :=
  (tokenizeAux Operators false [] [] text).1

/-- The single top-of-stack comparison of ConvertToRPN's default case
(src/SimpleCalculator.cpp lines 234-252): when the stack is non-empty and
its top is not a left parenthesis, pop the top into the output if the
precedence/associativity condition holds — checked once, not in a loop —
then push the incoming operator. -/
def handleOp (t : Token) (op_stack rpn : List Token) : List Token × List Token :=
  match op_stack with
  | [] => (t :: op_stack, rpn)
  | top :: rest =>
    if top.type = TokenType.LParanthesis then (t :: op_stack, rpn)
    else
      if (decide (t.type ≠ TokenType.Exp) &&
            decide (OperatorPrecendence t.type ≤ OperatorPrecendence top.type))
          || (!(decide (t.type ≠ TokenType.Exp)) &&
            decide (OperatorPrecendence t.type < OperatorPrecendence top.type)) then
        (t :: rest, rpn ++ [top])
      else (t :: op_stack, rpn)

/-- The right-parenthesis case (src/SimpleCalculator.cpp lines 212-231):
pop operators into the output until a left parenthesis is popped and
discarded; `none` when the stack empties without one. -/
def popUntilLParen : List Token → List Token → Option (List Token × List Token)
  | [], _ => none
  | top :: rest, rpn =>
    if top.type = TokenType.LParanthesis then some (rest, rpn)
    else popUntilLParen rest (rpn ++ [top])

/-- The end-of-input drain (src/SimpleCalculator.cpp lines 256-265): pop
all remaining operators into the output, failing if a left parenthesis is
popped. -/
def drainStack : List Token → List Token → Except EvaluationError (List Token)
  | [], rpn => Except.ok rpn
  | top :: rest, rpn =>
    if top.type = TokenType.LParanthesis then
      Except.error EvaluationError.MismatchedParantheses
    else drainStack rest (rpn ++ [top])

/-- ConvertToRPN's token loop over the remaining input, with the operator
stack and output accumulated so far. -/
def convertAux (op_stack rpn : List Token) :
    List Token → Except EvaluationError (List Token)
  | [] => drainStack op_stack rpn
  | t :: rest =>
    match t.type with
    | TokenType.Number => convertAux op_stack (rpn ++ [t]) rest
    | TokenType.LParanthesis => convertAux (t :: op_stack) rpn rest
    | TokenType.RParenthesis =>
      match popUntilLParen op_stack rpn with
      | some sr => convertAux sr.1 sr.2 rest
      | none => Except.error EvaluationError.MismatchedParantheses
    | _ =>
      let sr := handleOp t op_stack rpn
      convertAux sr.1 sr.2 rest

/-- ConvertToRPN from src/SimpleCalculator.cpp lines 195-268. -/
def ConvertToRPN (tokens : List Token) : Except EvaluationError (List Token) :=
  convertAux [] [] tokens

/-- `std::pow` on the values the program computes with, modelled over ℚ:
exact for integer exponents (the only exponents the spec's examples
exercise); a non-integer exponent is outside the rational model and maps
to 0. -/
def powQ (b e : ℚ) : ℚ :=
  if e.den = 1 then
    if 0 ≤ e.num then b ^ e.num.toNat else (b ^ (-e.num).toNat)⁻¹
  else 0

/-- The switch of the postfix evaluation loop (src/SimpleCalculator.cpp
lines 89-106): `arg2` is the second pop (left operand), `arg1` the first
pop (right operand); a type with no case leaves `arg3` at its initial 0. -/
def applyOp (t : TokenType) (arg2 arg1 : ℚ) : ℚ :=
  match t with
  | TokenType.Add => arg2 + arg1
  | TokenType.Sub => arg2 - arg1
  | TokenType.Mult => arg2 * arg1
  | TokenType.Div => arg2 / arg1
  | TokenType.Exp => powQ arg2 arg1
  | _ => 0

/-- The postfix evaluation loop of SimpleCalculator::Evaluate
(src/SimpleCalculator.cpp lines 70-109) over the evaluation stack (head =
top): numbers push; any other token needs two operands, popping the right
operand first. -/
def evalRPNLoop (stack : List ℚ) :
    List Token → Except EvaluationError (List ℚ)
  | [] => Except.ok stack
  | t :: rest =>
    if t.type = TokenType.Number then evalRPNLoop (t.val :: stack) rest
    else
      match stack with
      | arg1 :: arg2 :: s => evalRPNLoop (applyOp t.type arg2 arg1 :: s) rest
      | _ => Except.error EvaluationError.NotEnoughInputs

/-- The tail of SimpleCalculator::Evaluate (src/SimpleCalculator.cpp
lines 111-116): more than one value left is TooManyInputs; otherwise the
result is `eval_stack.top()` — a read that is undefined behaviour when
the stack is empty, surfaced here as `none`. -/
def evalRPN (rpn : List Token) : Except EvaluationError (Option ℚ) :=
  match evalRPNLoop [] rpn with
  | Except.error e => Except.error e
  | Except.ok stack =>
    if stack.length > 1 then Except.error EvaluationError.TooManyInputs
    else Except.ok stack.head?

/-- SimpleCalculator::Evaluate with the shared `Operators` map in a given
state: the three stages in order, short-circuiting on the first failure.
The map state only matters because `Tokenize` reads (and can grow) it. -/
def EvaluateWithOps (ops : List (Char × Token)) (text : String) :
    Except EvaluationError (Option ℚ) :=
  match (tokenizeAux ops false [] [] text.toList).1 with
  | Except.error e => Except.error e
  | Except.ok tokens =>
    match ConvertToRPN tokens with
    | Except.error e => Except.error e
    | Except.ok rpn => evalRPN rpn

/-- SimpleCalculator::Evaluate on a fresh process (initial `Operators`
map). -/
def Evaluate (text : String) : Except EvaluationError (Option ℚ) :=
  EvaluateWithOps Operators text

/-- Modelled from the spec: the textbook shunting-yard comparison of
§4.2, which pops in a loop — "while the top of the operator stack is not
a left-parenthesis AND (`t` is left-associative and its precedence ≤
top's precedence, OR `t` is right-associative and its precedence < top's
precedence), pop the top into the output" — kept alongside the code's
single-comparison `handleOp` to compare the two converters. -/
def stdPopWhile (t : Token) : List Token → List Token → List Token × List Token
  | [], rpn => ([], rpn)
  | top :: rest, rpn =>
    if top.type = TokenType.LParanthesis then (top :: rest, rpn)
    else
      if (decide (t.type ≠ TokenType.Exp) &&
            decide (OperatorPrecendence t.type ≤ OperatorPrecendence top.type))
          || (!(decide (t.type ≠ TokenType.Exp)) &&
            decide (OperatorPrecendence t.type < OperatorPrecendence top.type)) then
        stdPopWhile t rest (rpn ++ [top])
      else (top :: rest, rpn)

/-- Modelled from the spec: the token loop of the textbook converter;
identical to `convertAux` except that the operator case pops in a loop
before pushing. -/
def convertStdAux (op_stack rpn : List Token) :
    List Token → Except EvaluationError (List Token)
  | [] => drainStack op_stack rpn
  | t :: rest =>
    match t.type with
    | TokenType.Number => convertStdAux op_stack (rpn ++ [t]) rest
    | TokenType.LParanthesis => convertStdAux (t :: op_stack) rpn rest
    | TokenType.RParenthesis =>
      match popUntilLParen op_stack rpn with
      | some sr => convertStdAux sr.1 sr.2 rest
      | none => Except.error EvaluationError.MismatchedParantheses
    | _ =>
      let sr := stdPopWhile t op_stack rpn
      convertStdAux (t :: sr.1) sr.2 rest

/-- Modelled from the spec: standard Reverse-Polish conversion for the
given precedence/associativity table (§4.2 with the looped comparison). -/
def ConvertToRPNStd (tokens : List Token) : Except EvaluationError (List Token) :=
  convertStdAux [] [] tokens

/-!
## Claim theorems
-/

/-- C1 (counterexample): the universal correctness claim fails. For the
valid, balanced expression "2^3^2+1" the mathematically correct value is
2^(3^2)+1 = 513, but `Evaluate` returns 1024, and `ConvertToRPN` emits
`2 3 2 ^ 1 + ^` where standard Reverse-Polish order for the table is
`2 3 2 ^ ^ 1 +` (which evaluates to 513): the single top-of-stack
comparison under-pops, leaving the second `^` below the `+`. -/
theorem C1_counterexample :
    Evaluate ("2^3^2+1") = Except.ok (some 1024) ∧
    Tokenize (String.toList "2^3^2+1") =
      Except.ok [⟨TokenType.Number, 2⟩, ⟨TokenType.Exp, 0⟩, ⟨TokenType.Number, 3⟩,
        ⟨TokenType.Exp, 0⟩, ⟨TokenType.Number, 2⟩, ⟨TokenType.Add, 0⟩,
        ⟨TokenType.Number, 1⟩] ∧
    ConvertToRPN [⟨TokenType.Number, 2⟩, ⟨TokenType.Exp, 0⟩, ⟨TokenType.Number, 3⟩,
        ⟨TokenType.Exp, 0⟩, ⟨TokenType.Number, 2⟩, ⟨TokenType.Add, 0⟩,
        ⟨TokenType.Number, 1⟩] =
      Except.ok [⟨TokenType.Number, 2⟩, ⟨TokenType.Number, 3⟩, ⟨TokenType.Number, 2⟩,
        ⟨TokenType.Exp, 0⟩, ⟨TokenType.Number, 1⟩, ⟨TokenType.Add, 0⟩,
        ⟨TokenType.Exp, 0⟩] ∧
    ConvertToRPNStd [⟨TokenType.Number, 2⟩, ⟨TokenType.Exp, 0⟩, ⟨TokenType.Number, 3⟩,
        ⟨TokenType.Exp, 0⟩, ⟨TokenType.Number, 2⟩, ⟨TokenType.Add, 0⟩,
        ⟨TokenType.Number, 1⟩] =
      Except.ok [⟨TokenType.Number, 2⟩, ⟨TokenType.Number, 3⟩, ⟨TokenType.Number, 2⟩,
        ⟨TokenType.Exp, 0⟩, ⟨TokenType.Exp, 0⟩, ⟨TokenType.Number, 1⟩,
        ⟨TokenType.Add, 0⟩] ∧
    evalRPN [⟨TokenType.Number, 2⟩, ⟨TokenType.Number, 3⟩, ⟨TokenType.Number, 2⟩,
        ⟨TokenType.Exp, 0⟩, ⟨TokenType.Exp, 0⟩, ⟨TokenType.Number, 1⟩,
        ⟨TokenType.Add, 0⟩] = Except.ok (some 513) ∧
    (2 : ℚ) ^ ((3 : ℕ) ^ 2) + 1 = 513 ∧
    (1024 : ℚ) ≠ 513 := by
  refine ⟨?_, ?_, ?_, ?_, ?_, ?_, ?_⟩
  · with_unfolding_all rfl
  · with_unfolding_all rfl
  · with_unfolding_all rfl
  · with_unfolding_all rfl
  · with_unfolding_all rfl
  · norm_num
  · norm_num

/-- C1 (amended): on the spec's example expressions — all of which need
at most one pop per incoming operator — `Evaluate` returns OK with the
mathematically correct value: (1+2)*3 = 9, 10/2-3 = 2, 2^3^2 = 2^(3^2) =
512, and 3 - -2 = 5. -/
theorem C1_spec_examples_correct :
    Evaluate ("(1+2)*3") = Except.ok (some 9) ∧
    Evaluate ("10/2-3") = Except.ok (some 2) ∧
    Evaluate ("2^3^2") = Except.ok (some 512) ∧
    Evaluate ("3 - -2") = Except.ok (some 5) ∧
    ((1 : ℚ) + 2) * 3 = 9 ∧
    (10 : ℚ) / 2 - 3 = 2 ∧
    (2 : ℚ) ^ ((3 : ℕ) ^ 2) = 512 ∧
    (3 : ℚ) - (-2) = 5 := by
  refine ⟨?_, ?_, ?_, ?_, ?_, ?_, ?_, ?_⟩
  · with_unfolding_all rfl
  · with_unfolding_all rfl
  · with_unfolding_all rfl
  · with_unfolding_all rfl
  · norm_num
  · norm_num
  · norm_num
  · norm_num

/-- C3: for input "()" tokenization and RPN conversion both succeed with
an empty postfix sequence, so the evaluation stack is empty when the
final `eval_stack.top()` on line 115 executes — the read the claim says
never happens.  In the model the undefined-behaviour read surfaces as the
`none` payload. -/
theorem C3_empty_stack_read :
    Tokenize (String.toList "()") =
      Except.ok [⟨TokenType.LParanthesis, 0⟩, ⟨TokenType.RParenthesis, 0⟩] ∧
    ConvertToRPN [⟨TokenType.LParanthesis, 0⟩, ⟨TokenType.RParenthesis, 0⟩] =
      Except.ok ([] : List Token) ∧
    evalRPNLoop [] ([] : List Token) = Except.ok ([] : List ℚ) ∧
    Evaluate ("()") = Except.ok none := by
  refine ⟨?_, ?_, ?_, ?_⟩ <;> with_unfolding_all rfl

/-- C9: repeated exponentiation groups right-to-left: `Evaluate` on
"2^3^2" returns OK with 512, the postfix order is `2 3 2 ^ ^`, and
512 = 2^(3^2). -/
theorem C9_right_assoc_exponentiation :
    Evaluate ("2^3^2") = Except.ok (some 512) ∧
    ConvertToRPN [⟨TokenType.Number, 2⟩, ⟨TokenType.Exp, 0⟩, ⟨TokenType.Number, 3⟩,
        ⟨TokenType.Exp, 0⟩, ⟨TokenType.Number, 2⟩] =
      Except.ok [⟨TokenType.Number, 2⟩, ⟨TokenType.Number, 3⟩, ⟨TokenType.Number, 2⟩,
        ⟨TokenType.Exp, 0⟩, ⟨TokenType.Exp, 0⟩] ∧
    (2 : ℚ) ^ ((3 : ℕ) ^ 2) = 512 := by
  refine ⟨?_, ?_, ?_⟩
  · with_unfolding_all rfl
  · with_unfolding_all rfl
  · norm_num

/-- C10: the shared `Operators` map is mutated after initialisation.
Tokenizing " 1" succeeds with OK 1, but the `Operators[curr]` lookup in
the number-start check default-inserts a binding for the space character
into the shared map (`std::map::operator[]` on a missing key), so the
table after the call differs from the initial table; a second evaluation
of the same text against the mutated table then treats the space as an
operator token (its contents are indeterminate in C++; with the
zero-initialised modelling it makes the second call return TooManyInputs
instead of OK 1). -/
theorem C10_operators_map_mutated :
    (tokenizeAux Operators false [] [] (String.toList " 1")).1 =
      Except.ok [⟨TokenType.Number, 1⟩] ∧
    (tokenizeAux Operators false [] [] (String.toList " 1")).2 =
      Operators ++ [(' ', defaultToken)] ∧
    opLookup Operators ' ' = none ∧
    Operators ++ [(' ', defaultToken)] ≠ Operators ∧
    EvaluateWithOps Operators (" 1") = Except.ok (some 1) ∧
    EvaluateWithOps (Operators ++ [(' ', defaultToken)]) (" 1") =
      Except.error EvaluationError.TooManyInputs := by
  refine ⟨?_, ?_, ?_, ?_, ?_, ?_⟩
  · with_unfolding_all rfl
  · with_unfolding_all rfl
  · with_unfolding_all rfl
  · intro h
    have hlen := congrArg List.length h
    simp [Operators] at hlen
  · with_unfolding_all rfl
  · with_unfolding_all rfl

/-- C2: for every incoming non-parenthesis operator token the converter
delegates to `handleOp`, which inspects only the single current top of
the operator stack once: it either pops nothing, or pops exactly that one
top into the output, before pushing the incoming token — never a loop. -/
theorem C2_single_top_comparison (t : Token) (op_stack rpn rest : List Token)
    (ht : t.type = TokenType.Add ∨ t.type = TokenType.Sub ∨ t.type = TokenType.Mult ∨
      t.type = TokenType.Div ∨ t.type = TokenType.Exp) :
    convertAux op_stack rpn (t :: rest) =
      convertAux (handleOp t op_stack rpn).1 (handleOp t op_stack rpn).2 rest ∧
    (handleOp t op_stack rpn = (t :: op_stack, rpn) ∨
      ∃ top rest2, op_stack = top :: rest2 ∧
        handleOp t op_stack rpn = (t :: rest2, rpn ++ [top])) := by
  constructor
  · rcases ht with h | h | h | h | h <;> simp only [convertAux, h]
  · cases op_stack with
    | nil => exact Or.inl rfl
    | cons top rest2 =>
      by_cases hp : top.type = TokenType.LParanthesis
      · left
        simp only [handleOp]
        rw [if_pos hp]
      · by_cases hc : ((decide (t.type ≠ TokenType.Exp) &&
            decide (OperatorPrecendence t.type ≤ OperatorPrecendence top.type))
            || (!(decide (t.type ≠ TokenType.Exp)) &&
            decide (OperatorPrecendence t.type < OperatorPrecendence top.type))) = true
        · right
          refine ⟨top, rest2, rfl, ?_⟩
          simp only [handleOp]
          rw [if_neg hp, if_pos hc]
        · left
          simp only [handleOp]
          rw [if_neg hp, if_neg hc]

/-- C2 witness: an incoming `+` with `*` on the stack pops exactly that
one `*` into the output and pushes the `+`. -/
theorem C2_single_top_comparison_witness :
    convertAux [⟨TokenType.Mult, 0⟩] [] [⟨TokenType.Add, 0⟩] =
      convertAux (handleOp ⟨TokenType.Add, 0⟩ [⟨TokenType.Mult, 0⟩] []).1
        (handleOp ⟨TokenType.Add, 0⟩ [⟨TokenType.Mult, 0⟩] []).2 [] ∧
    handleOp ⟨TokenType.Add, 0⟩ [⟨TokenType.Mult, 0⟩] [] =
      ([⟨TokenType.Add, 0⟩], [⟨TokenType.Mult, 0⟩]) := by
  have h := C2_single_top_comparison ⟨TokenType.Add, 0⟩ [⟨TokenType.Mult, 0⟩] [] []
    (Or.inl rfl)
  exact ⟨h.1, by with_unfolding_all rfl⟩

/-- C4: once the evaluation loop has consumed all postfix tokens leaving
final stack `stack`, the evaluator returns TooManyInputs when more than
one value remains, and returns the single remaining value otherwise. -/
theorem C4_final_stack (rpn : List Token) (stack : List ℚ)
    (h : evalRPNLoop [] rpn = Except.ok stack) :
    (stack.length > 1 → evalRPN rpn = Except.error EvaluationError.TooManyInputs) ∧
    (∀ v, stack = [v] → evalRPN rpn = Except.ok (some v)) := by
  unfold evalRPN
  rw [h]
  constructor
  · intro hl
    simp [hl]
  · rintro v rfl
    simp

/-- C4 witness: the excess-literal postfix sequence `1 2` fails with
TooManyInputs, and the single-literal sequence `7` returns 7. -/
theorem C4_final_stack_witness :
    evalRPN [⟨TokenType.Number, 1⟩, ⟨TokenType.Number, 2⟩] =
      Except.error EvaluationError.TooManyInputs ∧
    evalRPN [⟨TokenType.Number, 7⟩] = Except.ok (some 7) := by
  have h := C4_final_stack [⟨TokenType.Number, 1⟩, ⟨TokenType.Number, 2⟩] [2, 1]
    (by with_unfolding_all rfl)
  have h2 := C4_final_stack [⟨TokenType.Number, 7⟩] [7] (by with_unfolding_all rfl)
  exact ⟨h.1 (by norm_num), h2.2 7 rfl⟩

/-- C5: when the postfix evaluation loop meets an operator token it fails
with NotEnoughInputs if fewer than two values are stacked — in particular
evaluating "+" returns NotEnoughInputs — and otherwise pops `rhs` first
(the top), `lhs` second, and pushes `lhs op rhs` (Subtract pushes
lhs − rhs, Divide pushes lhs / rhs). -/
theorem C5_operator_semantics (t : Token) (rest : List Token) (stack : List ℚ)
    (ht : t.type = TokenType.Add ∨ t.type = TokenType.Sub ∨ t.type = TokenType.Mult ∨
      t.type = TokenType.Div ∨ t.type = TokenType.Exp) :
    (stack.length < 2 →
      evalRPNLoop stack (t :: rest) = Except.error EvaluationError.NotEnoughInputs) ∧
    (∀ rhs lhs s, stack = rhs :: lhs :: s →
      evalRPNLoop stack (t :: rest) = evalRPNLoop (applyOp t.type lhs rhs :: s) rest) ∧
    (∀ lhs rhs : ℚ, applyOp TokenType.Sub lhs rhs = lhs - rhs ∧
      applyOp TokenType.Div lhs rhs = lhs / rhs) ∧
    Evaluate ("+") = Except.error EvaluationError.NotEnoughInputs := by
  have hnum : ¬(t.type = TokenType.Number) := by
    rcases ht with h | h | h | h | h <;> simp [h]
  refine ⟨?_, ?_, ?_, ?_⟩
  · intro hl
    unfold evalRPNLoop
    rw [if_neg hnum]
    match stack, hl with
    | [], _ => rfl
    | [a], _ => rfl
  · rintro rhs lhs s rfl
    conv_lhs => rw [evalRPNLoop]
    rw [if_neg hnum]
  · intro lhs rhs
    exact ⟨rfl, rfl⟩
  · with_unfolding_all rfl

/-- C5 witness: a bare `+` on an empty stack fails with NotEnoughInputs;
a `-` on the stack `[5, 7]` (5 on top) pops rhs = 5 and lhs = 7 and
pushes `applyOp Sub 7 5 = 7 - 5`. -/
theorem C5_operator_semantics_witness :
    evalRPNLoop [] [⟨TokenType.Add, 0⟩] = Except.error EvaluationError.NotEnoughInputs ∧
    evalRPNLoop [5, 7] [⟨TokenType.Sub, 0⟩] =
      evalRPNLoop [applyOp TokenType.Sub 7 5] [] ∧
    applyOp TokenType.Sub 7 5 = 7 - 5 ∧
    Evaluate ("+") = Except.error EvaluationError.NotEnoughInputs := by
  have h1 := C5_operator_semantics ⟨TokenType.Add, 0⟩ [] [] (Or.inl rfl)
  have h2 := C5_operator_semantics ⟨TokenType.Sub, 0⟩ [] [5, 7] (Or.inr (Or.inl rfl))
  exact ⟨h1.1 (by norm_num), h2.2.1 5 7 [] rfl, (h2.2.2.1 7 5).1, h1.2.2.2⟩

/-- Helper for C7: popping for a right parenthesis returns `none` (the
stack emptied) when no left parenthesis is on the stack. -/
theorem popUntilLParen_none_of_no_lparen : ∀ (stack rpn : List Token),
    (∀ tk ∈ stack, tk.type ≠ TokenType.LParanthesis) → popUntilLParen stack rpn = none
  | [], _, _ => rfl
  | top :: rest, rpn, h => by
    unfold popUntilLParen
    rw [if_neg (h top (List.mem_cons_self top rest))]
    exact popUntilLParen_none_of_no_lparen rest (rpn ++ [top])
      (fun tk htk => h tk (List.mem_cons_of_mem _ htk))

/-- Helper for C7: popping for a right parenthesis moves every operator
above the first left parenthesis into the output, discards that left
parenthesis, and leaves the rest of the stack. -/
theorem popUntilLParen_finds : ∀ (pre post rpn : List Token) (lp : Token),
    (∀ tk ∈ pre, tk.type ≠ TokenType.LParanthesis) → lp.type = TokenType.LParanthesis →
    popUntilLParen (pre ++ lp :: post) rpn = some (post, rpn ++ pre)
  | [], post, rpn, lp, _, hlp => by
    show popUntilLParen (lp :: post) rpn = _
    unfold popUntilLParen
    rw [if_pos hlp]
    simp
  | top :: pre, post, rpn, lp, h, hlp => by
    show popUntilLParen (top :: (pre ++ lp :: post)) rpn = _
    unfold popUntilLParen
    rw [if_neg (h top (List.mem_cons_self top pre))]
    rw [popUntilLParen_finds pre post (rpn ++ [top]) lp
      (fun tk htk => h tk (List.mem_cons_of_mem _ htk)) hlp]
    simp

/-- Helper for C7: the end-of-input drain fails with MismatchedParantheses
as soon as it pops a left parenthesis. -/
theorem drainStack_lparen_error : ∀ (pre post rpn : List Token) (lp : Token),
    (∀ tk ∈ pre, tk.type ≠ TokenType.LParanthesis) → lp.type = TokenType.LParanthesis →
    drainStack (pre ++ lp :: post) rpn = Except.error EvaluationError.MismatchedParantheses
  | [], post, rpn, lp, _, hlp => by
    show drainStack (lp :: post) rpn = _
    unfold drainStack
    rw [if_pos hlp]
  | top :: pre, post, rpn, lp, h, hlp => by
    show drainStack (top :: (pre ++ lp :: post)) rpn = _
    unfold drainStack
    rw [if_neg (h top (List.mem_cons_self top pre))]
    exact drainStack_lparen_error pre post (rpn ++ [top]) lp
      (fun tk htk => h tk (List.mem_cons_of_mem _ htk)) hlp

/-- C7: a right parenthesis pops operators into the output until a left
parenthesis is popped and discarded, failing with MismatchedParantheses
when the stack empties without one; the end-of-input drain fails with
MismatchedParantheses when it pops a left parenthesis; and evaluating
"(1+2" returns MismatchedParantheses. -/
theorem C7_parentheses (op_stack rpn rest pre post : List Token) (t lp : Token)
    (hstack : ∀ tk ∈ op_stack, tk.type ≠ TokenType.LParanthesis)
    (ht : t.type = TokenType.RParenthesis)
    (hpre : ∀ tk ∈ pre, tk.type ≠ TokenType.LParanthesis)
    (hlp : lp.type = TokenType.LParanthesis) :
    popUntilLParen op_stack rpn = none ∧
    convertAux op_stack rpn (t :: rest) = Except.error EvaluationError.MismatchedParantheses ∧
    popUntilLParen (pre ++ lp :: post) rpn = some (post, rpn ++ pre) ∧
    drainStack (pre ++ lp :: post) rpn = Except.error EvaluationError.MismatchedParantheses ∧
    Evaluate ("(1+2") = Except.error EvaluationError.MismatchedParantheses := by
  have h1 := popUntilLParen_none_of_no_lparen op_stack rpn hstack
  refine ⟨h1, ?_, popUntilLParen_finds pre post rpn lp hpre hlp,
    drainStack_lparen_error pre post rpn lp hpre hlp, by with_unfolding_all rfl⟩
  simp only [convertAux, ht, h1]

/-- C7 witness: a right parenthesis over the parenthesis-free stack `[+]`
finds no left parenthesis and the converter fails; over the stack
`[+, (, *]` it pops the `+`, discards the `(` and keeps `[*]`; draining
`[+, (, *]` fails; and evaluating "(1+2" returns MismatchedParantheses. -/
theorem C7_parentheses_witness :
    popUntilLParen [⟨TokenType.Add, 0⟩] [] = none ∧
    convertAux [⟨TokenType.Add, 0⟩] [] [⟨TokenType.RParenthesis, 0⟩] =
      Except.error EvaluationError.MismatchedParantheses ∧
    popUntilLParen [⟨TokenType.Add, 0⟩, ⟨TokenType.LParanthesis, 0⟩, ⟨TokenType.Mult, 0⟩] [] =
      some ([⟨TokenType.Mult, 0⟩], [⟨TokenType.Add, 0⟩]) ∧
    drainStack [⟨TokenType.Add, 0⟩, ⟨TokenType.LParanthesis, 0⟩, ⟨TokenType.Mult, 0⟩] [] =
      Except.error EvaluationError.MismatchedParantheses ∧
    Evaluate ("(1+2") = Except.error EvaluationError.MismatchedParantheses := by
  have h := C7_parentheses [⟨TokenType.Add, 0⟩] [] [] [⟨TokenType.Add, 0⟩] [⟨TokenType.Mult, 0⟩]
    ⟨TokenType.RParenthesis, 0⟩ ⟨TokenType.LParanthesis, 0⟩
    (by intro tk htk; rw [List.mem_singleton.mp htk]; decide) rfl
    (by intro tk htk; rw [List.mem_singleton.mp htk]; decide) rfl
  exact h

/-- Helper for C8: in the initial `Operators` map, `Operators[c]` has the
subtract token type exactly when `c` is the subtract symbol. -/
theorem opIndex_type_sub_iff (c : Char) :
    ((opIndex Operators c).1.type = TokenType.Sub) ↔ c = '-' := by
  simp only [opIndex, opLookup, Operators, defaultToken]
  split_ifs with h1 h2 h3 h4 h5 h6 h7
  · subst h1; decide
  · subst h2; decide
  · subst h3; decide
  · subst h4; decide
  · subst h5; decide
  · subst h6; decide
  · subst h7; decide
  · exact iff_of_false (by decide) (fun hc => h2 hc.symm)

/-- C8: the tokenizer starts a number exactly when the current character
is a decimal digit, a decimal point, or the subtract symbol immediately
followed by a digit; consequently "3 - -2" tokenizes the second minus
into the literal −2 and evaluates to OK 5. -/
theorem C8_number_start (c : Char) (rest : List Char) :
    ((startsNumber Operators c rest).1 = true ↔
      (iswdigit c = true ∨ c = '.' ∨
        (c = '-' ∧ ∃ d l, rest = d :: l ∧ iswdigit d = true))) ∧
    Tokenize (String.toList "3 - -2") =
      Except.ok [⟨TokenType.Number, 3⟩, ⟨TokenType.Sub, 0⟩, ⟨TokenType.Number, -2⟩] ∧
    Evaluate ("3 - -2") = Except.ok (some 5) := by
  refine ⟨?_, by with_unfolding_all rfl, by with_unfolding_all rfl⟩
  by_cases hd : (iswdigit c || c = '.') = true
  · unfold startsNumber
    rw [if_pos hd]
    simp only [Bool.or_eq_true, decide_eq_true_eq] at hd
    simp only [true_iff]
    tauto
  · unfold startsNumber
    rw [if_neg hd]
    simp only [Bool.or_eq_true, decide_eq_true_eq, not_or] at hd
    obtain ⟨hd1, hd2⟩ := hd
    simp only [Bool.and_eq_true, decide_eq_true_eq]
    constructor
    · rintro ⟨hsub, hm⟩
      have hc : c = '-' := (opIndex_type_sub_iff c).mp hsub
      cases rest with
      | nil => simp at hm
      | cons d l => exact Or.inr (Or.inr ⟨hc, d, l, rfl, hm⟩)
    · rintro (h | h | ⟨hc, d, l, rfl, hdig⟩)
      · exact absurd h hd1
      · exact absurd h hd2
      · exact ⟨(opIndex_type_sub_iff c).mpr hc, hdig⟩

/-- Helper for C6: the scanning loop fails on any remaining input that
contains an alphabetic character, whatever its state, with either
InvalidCharacters or UnknownOperator (every other branch consumes a
character and recurses; the alphabetic check precedes all of them). -/
theorem tokenizeAux_alpha_error : ∀ (text : List Char) (ops : List (Char × Token))
    (parsing : Bool) (numAcc : List Char) (tokens : List Token),
    (∃ c ∈ text, iswalpha c = true) →
    (tokenizeAux ops parsing numAcc tokens text).1 =
        Except.error EvaluationError.InvalidCharacters ∨
    (tokenizeAux ops parsing numAcc tokens text).1 =
        Except.error EvaluationError.UnknownOperator
  | [], _, _, _, _, h => by simp at h
  | c :: rest, ops, parsing, numAcc, tokens, h => by
    by_cases hca : iswalpha c = true
    · left
      unfold tokenizeAux
      rw [if_pos hca]
    · have hrest : ∃ d ∈ rest, iswalpha d = true := by
        rcases h with ⟨d, hd, hda⟩
        rcases List.mem_cons.mp hd with rfl | hdr
        · exact absurd hda hca
        · exact ⟨d, hdr, hda⟩
      unfold tokenizeAux
      rw [if_neg hca]
      split
      · split
        · exact tokenizeAux_alpha_error rest _ _ _ _ hrest
        · split
          · exact tokenizeAux_alpha_error rest _ _ _ _ hrest
          · exact tokenizeAux_alpha_error rest _ _ _ _ hrest
      · split
        split
        · exact tokenizeAux_alpha_error rest _ _ _ _ hrest
        · split
          · split
            · exact tokenizeAux_alpha_error rest _ _ _ _ hrest
            · exact tokenizeAux_alpha_error rest _ _ _ _ hrest
          · split
            · exact tokenizeAux_alpha_error rest _ _ _ _ hrest
            · right
              rfl

/-- C6 (counterexample): "#a" contains the alphabetic character `a`, yet
tokenizing it returns UnknownOperator, not InvalidCharacters — the
unknown symbol `#` is scanned first and fails before the alphabetic
check ever sees the `a`. -/
theorem C6_counterexample :
    (∃ c ∈ String.toList "#a", iswalpha c = true) ∧
    Tokenize (String.toList "#a") = Except.error EvaluationError.UnknownOperator ∧
    EvaluationError.UnknownOperator ≠ EvaluationError.InvalidCharacters := by
  refine ⟨⟨'a', by decide, by decide⟩, by with_unfolding_all rfl, by decide⟩

/-- C6 (amended): tokenizing any string that contains an alphabetic
character always fails — with InvalidCharacters, unless an unknown
symbol earlier in the string fails with UnknownOperator first. -/
theorem C6_alpha_always_fails (text : List Char)
    (h : ∃ c ∈ text, iswalpha c = true) :
    Tokenize text = Except.error EvaluationError.InvalidCharacters ∨
    Tokenize text = Except.error EvaluationError.UnknownOperator := by
  unfold Tokenize
  exact tokenizeAux_alpha_error text Operators false [] [] h

/-- C6 witness: "1+a" contains an alphabetic character, so tokenizing it
fails with one of the two errors (here InvalidCharacters). -/
theorem C6_alpha_always_fails_witness :
    Tokenize (String.toList "1+a") = Except.error EvaluationError.InvalidCharacters ∨
    Tokenize (String.toList "1+a") = Except.error EvaluationError.UnknownOperator :=
  C6_alpha_always_fails (String.toList "1+a") ⟨'a', by decide, by decide⟩
